import Mathlib

/-!
Verification of the Go forwarding HTTP proxy.

Shallow embedding of the repository's pure logic:
* `src/config/config.go` — configuration records, environment overrides,
  validation, defaults;
* `src/logging/logger.go` — log levels, level parsing, level filtering;
* `src/proxy/client.go` — target-URL construction and outbound header
  rewriting (`copyHeaders`);
* `src/proxy/handler.go` — dispatcher failure responses, response-header
  relay (`copyResponseHeaders`), health and metrics endpoints, and the
  `loadConfigWithFallback` startup path of `main.go`.

Header names are modelled as byte sequences (`List Nat`), exactly as Go's
`net/textproto` treats them; `strBytes` converts a Lean string literal to
that form.  I/O (reading files, wall-clock timestamps, the network round
trip) is parameterised: a timestamp is an opaque string argument, the
outcome of a network call is a boolean argument, and a config file is its
already-decoded record.
-/

namespace ProxySpec

/-! ## Configuration data model (src/config/config.go) -/

/-- `ServerConfig` from src/config/config.go: bind port and host.
The Go field `Port int` is modelled as `Int`. -/
structure ServerConfig where
  port : Int
  host : String
deriving Repr, DecidableEq

/-- `TargetConfig` from src/config/config.go: upstream target scheme and host. -/
structure TargetConfig where
  scheme : String
  host : String
deriving Repr, DecidableEq

/-- `ProxyConfig` from src/config/config.go: upstream forward-proxy URL and
credentials. -/
structure ProxyConfig where
  url : String
  username : String
  password : String
deriving Repr, DecidableEq

/-- `LoggingConfig` from src/config/config.go. -/
structure LoggingConfig where
  level : String
  format : String
deriving Repr, DecidableEq

/-- `Config` from src/config/config.go. -/
structure Config where
  server : ServerConfig
  target : TargetConfig
  proxy : ProxyConfig
  logging : LoggingConfig
deriving Repr, DecidableEq

/-- The process environment as read by `applyEnvironmentOverrides`
(src/config/config.go lines 60-94).  Go's `os.Getenv` returns `""` for an
unset variable, and the code treats empty and unset alike, so each
variable is a plain string with `""` meaning "not set". -/
structure Env where
  proxyPort : String
  proxyHost : String
  targetHost : String
  targetScheme : String
  proxyUrl : String
  proxyUsername : String
  proxyPassword : String
  logLevel : String
deriving Repr, DecidableEq

/-- The environment with every variable unset. -/
def Env.empty : Env :=
  { proxyPort := "", proxyHost := "", targetHost := "", targetScheme := ""
    proxyUrl := "", proxyUsername := "", proxyPassword := "", logLevel := "" }

/-- Go's `strconv.Atoi`: optional sign followed by at least one decimal
digit; anything else is an error (`none`).  The int64 overflow error of
the Go version is not modelled (Lean `Int` is unbounded); no claim
involves values outside int64. -/
def atoi (s : String) : Option Int :=
  match s.data with
  | [] => none
  | c :: rest =>
    let signed : Bool × List Char :=
      if c = '-' then (true, rest) else if c = '+' then (false, rest) else (false, c :: rest)
    match signed with
    | (neg, digits) =>
      if digits = [] then none
      else if digits.all Char.isDigit then
        let n : Nat := digits.foldl (fun acc d => acc * 10 + (d.toNat - 48)) 0
        some (if neg then -(n : Int) else (n : Int))
      else none

/-- The `PROXY_PORT` block of `applyEnvironmentOverrides`
(src/config/config.go lines 61-65): a non-empty value overrides the port
only when `strconv.Atoi` succeeds. -/
def overridePort (env : Env) (c : Config) : Config :=
  if env.proxyPort ≠ "" then
    match atoi env.proxyPort with
    | some p => { c with server := { c.server with port := p } }
    | none => c
  else c

/-- The `PROXY_HOST` block of `applyEnvironmentOverrides`
(src/config/config.go lines 67-69). -/
def overrideHost (env : Env) (c : Config) : Config :=
  if env.proxyHost ≠ "" then { c with server := { c.server with host := env.proxyHost } } else c

/-- The `TARGET_HOST` block of `applyEnvironmentOverrides`
(src/config/config.go lines 71-73). -/
def overrideTargetHost (env : Env) (c : Config) : Config :=
  if env.targetHost ≠ "" then { c with target := { c.target with host := env.targetHost } } else c

/-- The `TARGET_SCHEME` block of `applyEnvironmentOverrides`
(src/config/config.go lines 75-77). -/
def overrideTargetScheme (env : Env) (c : Config) : Config :=
  if env.targetScheme ≠ "" then { c with target := { c.target with scheme := env.targetScheme } } else c

/-- The `PROXY_URL` block of `applyEnvironmentOverrides`
(src/config/config.go lines 79-81). -/
def overrideProxyUrl (env : Env) (c : Config) : Config :=
  if env.proxyUrl ≠ "" then { c with proxy := { c.proxy with url := env.proxyUrl } } else c

/-- The `PROXY_USERNAME` block of `applyEnvironmentOverrides`
(src/config/config.go lines 83-85). -/
def overrideProxyUsername (env : Env) (c : Config) : Config :=
  if env.proxyUsername ≠ "" then { c with proxy := { c.proxy with username := env.proxyUsername } } else c

/-- The `PROXY_PASSWORD` block of `applyEnvironmentOverrides`
(src/config/config.go lines 87-89). -/
def overrideProxyPassword (env : Env) (c : Config) : Config :=
  if env.proxyPassword ≠ "" then { c with proxy := { c.proxy with password := env.proxyPassword } } else c

/-- The `LOG_LEVEL` block of `applyEnvironmentOverrides`
(src/config/config.go lines 91-93). -/
def overrideLogLevel (env : Env) (c : Config) : Config :=
  if env.logLevel ≠ "" then { c with logging := { c.logging with level := env.logLevel } } else c

/-- `applyEnvironmentOverrides` (src/config/config.go lines 60-94): the
eight override blocks applied in source order. -/
def applyEnvironmentOverrides (env : Env) (c : Config) : Config :=
  overrideLogLevel env (overrideProxyPassword env (overrideProxyUsername env
    (overrideProxyUrl env (overrideTargetScheme env (overrideTargetHost env
      (overrideHost env (overridePort env c)))))))

/-- `validateConfig` (src/config/config.go lines 96-122): the first failing
check wins, mirroring the sequence of early returns. -/
def validateConfig (c : Config) : Except String Unit :=
  if c.server.port ≤ 0 ∨ c.server.port > 65535 then .error "invalid server port"
  else if c.target.host = "" then .error "target host is required"
  else if c.target.scheme ≠ "http" ∧ c.target.scheme ≠ "https" then .error "invalid target scheme"
  else if c.proxy.url = "" then .error "proxy URL is required"
  else if c.proxy.username = "" then .error "proxy username is required"
  else if c.proxy.password = "" then .error "proxy password is required"
  else .ok ()

/-- `LoadConfig` (src/config/config.go lines 38-58) after a successful
open/JSON-decode of the file into `fileCfg`: apply environment overrides,
then validate; the open and decode failure paths simply return the I/O or
decode error and are not needed by any claim. -/
def LoadConfig (fileCfg : Config) (env : Env) : Except String Config :=
  let c := applyEnvironmentOverrides env fileCfg
  match validateConfig c with
  | .error e => .error e
  | .ok _ => .ok c

/-- `DefaultConfig` (src/config/config.go lines 124-143). -/
def DefaultConfig : Config :=
  { server := { port := 8080, host := "0.0.0.0" }
    target := { scheme := "https", host := "target.com" }
    proxy := { url := "http://dc.oxylabs.io:8000"
               username := "user-ecosuite_p5OUw-country-US"
               password := "xFV5WETRRky_" }
    logging := { level := "info", format := "json" } }

/-- `loadConfigWithFallback` (main.go, src lines 251-277): when the config
file does not exist, the default configuration is written to disk and
returned directly — `LoadConfig` (and with it the environment overrides
and validation) never runs.  `fileExists` models the `os.Stat` probe and
`writeOk` the mkdir/create/encode steps of the fallback branch; when the
file exists, `fileCfg` is its decoded content. -/
def loadConfigWithFallback (fileExists : Bool) (writeOk : Bool)
    (fileCfg : Config) (env : Env) : Except String Config :=
  if fileExists = false then
    if writeOk then .ok DefaultConfig else .error "failed to write default config"
  else
    LoadConfig fileCfg env

/-! ## Logging (src/logging/logger.go) -/

/-- `LogLevel` (src/logging/logger.go lines 14-21): `DEBUG = 0`, `INFO = 1`,
`WARN = 2`, `ERROR = 3`. -/
inductive LogLevel where
  | DEBUG
  | INFO
  | WARN
  | ERROR
deriving Repr, DecidableEq

/-- The numeric value of a level (the Go `iota` constant). -/
def LogLevel.toNat : LogLevel → Nat
  | .DEBUG => 0
  | .INFO => 1
  | .WARN => 2
  | .ERROR => 3

/-- The per-rune uppercase mapping of Go's `strings.ToUpper`, restricted
to the code points whose Unicode simple uppercase mapping is an ASCII
letter: the ASCII letters a-z, U+0131 (dotless i, which uppercases to I)
and U+017F (long s, which uppercases to S) — these are the complete set
of code points with an ASCII simple uppercase.  Every other code point is
left unchanged; Go would
uppercase some of them (Greek, Cyrillic, full-width letters, ...), but
each of those maps to a non-ASCII code point, so for comparing the
uppercased string against an ASCII keyword — the only use `parseLogLevel`
makes of the result — the modelled function and Go's agree on every
input. -/
def charToUpper (c : Char) : Char :=
  if c.toNat = 305 then 'I'
  else if c.toNat = 383 then 'S'
  else c.toUpper

/-- Go's `strings.ToUpper`, rune by rune (`charToUpper` documents the
modelled extent of the Unicode case table). -/
def strToUpper (s : String) : String := String.mk (s.data.map charToUpper)

/-- `parseLogLevel` (src/logging/logger.go lines 61-74): uppercase the
string, match the five keywords, default to `INFO`. -/
def parseLogLevel (levelStr : String) : LogLevel :=
  let u := strToUpper levelStr
  if u = "DEBUG" then .DEBUG
  else if u = "INFO" then .INFO
  else if u = "WARN" ∨ u = "WARNING" then .WARN
  else if u = "ERROR" then .ERROR
  else .INFO

/-- The guard of `Logger.log` (src/logging/logger.go line 93): a message is
dropped exactly when its level is below the logger's configured level. -/
def logDrops (loggerLevel level : LogLevel) : Bool :=
  level.toNat < loggerLevel.toNat

/-- Feeding a sequence of leveled messages through `Logger.log`: the output
lines are exactly the messages that survive the level guard, in order. -/
def runLogger (loggerLevel : LogLevel) (msgs : List (LogLevel × String)) :
    List (LogLevel × String) :=
  msgs.filter (fun m => !logDrops loggerLevel m.fst)

/-! ## HTTP headers (net/textproto model)

Go header names are byte strings; `net/http` canonicalises them with
`textproto.CanonicalMIMEHeaderKey` on every `Add`/`Set`/`Get` and when the
server parses an inbound request.  A name is a `List Nat` of bytes and a
header map an association list from canonical names to the list of values
in arrival order (Go's `http.Header` map; key order is irrelevant, only
lookups are observed). -/

/-- The bytes of an ASCII string literal, for writing header names. -/
def strBytes (s : String) : List Nat := s.data.map Char.toNat

/-- A header name: a sequence of bytes. -/
abbrev HName := List Nat

/-- A header map: canonical names with their values. -/
abbrev HeaderMap := List (HName × List String)

/-- ASCII lowercase mapping on one byte (`c |= 0x20` for letters), as in
`textproto.canonicalMIMEHeaderKey`. -/
def lowerByte (b : Nat) : Nat := if 65 ≤ b ∧ b ≤ 90 then b + 32 else b

/-- ASCII uppercase mapping on one byte (`c -= 0x20` for letters), as in
`textproto.canonicalMIMEHeaderKey`. -/
def upperByte (b : Nat) : Nat := if 97 ≤ b ∧ b ≤ 122 then b - 32 else b

/-- `validHeaderFieldByte` of net/textproto: the RFC 7230 token bytes —
digits, letters, and the punctuation in the token table. -/
def isTokenByte (b : Nat) : Bool :=
  (48 ≤ b ∧ b ≤ 57) ∨ (65 ≤ b ∧ b ≤ 90) ∨ (97 ≤ b ∧ b ≤ 122) ∨
    b = 33 ∨ b = 35 ∨ b = 36 ∨ b = 37 ∨ b = 38 ∨ b = 39 ∨ b = 42 ∨
    b = 43 ∨ b = 45 ∨ b = 46 ∨ b = 94 ∨ b = 95 ∨ b = 96 ∨ b = 124 ∨ b = 126

/-- The canonicalisation loop of `textproto.CanonicalMIMEHeaderKey`:
uppercase the first byte and every byte following a hyphen (byte 45),
lowercase every other byte. -/
def canonAux : Bool → List Nat → List Nat
  | _, [] => []
  | up, b :: rest => (if up then upperByte b else lowerByte b) :: canonAux (b == 45) rest

/-- `textproto.CanonicalMIMEHeaderKey`: return the name unchanged when it
contains a non-token byte, otherwise canonicalise the case. -/
def canonicalMIMEHeaderKey (s : HName) : HName :=
  if s.all isTokenByte then canonAux true s else s

/-- Insertion into a `textproto.MIMEHeader` under an already-canonical key:
append the value to an existing entry or create a new one
(`Header.Add`). -/
def headerAddCanon : HeaderMap → HName → String → HeaderMap
  | [], k, v => [(k, [v])]
  | p :: rest, k, v =>
    if p.fst = k then (p.fst, p.snd ++ [v]) :: rest else p :: headerAddCanon rest k v

/-- `http.Header.Add`: canonicalise the name, then append the value. -/
def headerAdd (h : HeaderMap) (key : HName) (v : String) : HeaderMap :=
  headerAddCanon h (canonicalMIMEHeaderKey key) v

/-- Replacement in a `textproto.MIMEHeader` under an already-canonical key
(`Header.Set` assigns a one-element slice). -/
def headerSetCanon : HeaderMap → HName → String → HeaderMap
  | [], k, v => [(k, [v])]
  | p :: rest, k, v =>
    if p.fst = k then (p.fst, [v]) :: rest else p :: headerSetCanon rest k v

/-- `http.Header.Set`: canonicalise the name, then replace all values. -/
def headerSet (h : HeaderMap) (key : HName) (v : String) : HeaderMap :=
  headerSetCanon h (canonicalMIMEHeaderKey key) v

/-- Lookup in a `textproto.MIMEHeader` under an already-canonical key. -/
def headerGetCanon? (h : HeaderMap) (k : HName) : Option (List String) :=
  match h.find? (fun p => p.fst = k) with
  | some p => some p.snd
  | none => none

/-- `http.Header` lookup (`Header.Values`): canonicalise the queried name
and return the stored values, `none` when the header is absent. -/
def headerGet? (h : HeaderMap) (key : HName) : Option (List String) :=
  headerGetCanon? h (canonicalMIMEHeaderKey key)

/-- The header map the Go HTTP server builds from the raw inbound header
lines: each `(name, value)` line is added in order, names canonicalised. -/
def buildHeaderMap (raw : List (HName × String)) : HeaderMap :=
  raw.foldl (fun h p => headerAdd h p.fst p.snd) []

/-! ### Canonicalisation lemmas -/

lemma lowerByte_lowerByte (b : Nat) : lowerByte (lowerByte b) = lowerByte b := by
  simp only [lowerByte]
  split <;> (try split) <;> omega

lemma upperByte_upperByte (b : Nat) : upperByte (upperByte b) = upperByte b := by
  simp only [upperByte]
  split <;> (try split) <;> omega

lemma lowerByte_beq_45 (b : Nat) : (lowerByte b == 45) = (b == 45) := by
  rw [Bool.eq_iff_iff]
  simp only [beq_iff_eq, lowerByte]
  split <;> omega

lemma upperByte_beq_45 (b : Nat) : (upperByte b == 45) = (b == 45) := by
  rw [Bool.eq_iff_iff]
  simp only [beq_iff_eq, upperByte]
  split <;> omega

lemma isTokenByte_lowerByte (b : Nat) (h : isTokenByte b = true) :
    isTokenByte (lowerByte b) = true := by
  simp only [isTokenByte, decide_eq_true_eq] at h ⊢
  simp only [lowerByte]
  split <;> omega

lemma isTokenByte_upperByte (b : Nat) (h : isTokenByte b = true) :
    isTokenByte (upperByte b) = true := by
  simp only [isTokenByte, decide_eq_true_eq] at h ⊢
  simp only [upperByte]
  split <;> omega

lemma canonAux_all_token (l : List Nat) :
    ∀ up : Bool, l.all isTokenByte = true → (canonAux up l).all isTokenByte = true := by
  induction l with
  | nil => intro up _; rfl
  | cons b rest ih =>
    intro up h
    rw [List.all_cons, Bool.and_eq_true] at h
    rw [canonAux, List.all_cons, Bool.and_eq_true]
    refine ⟨?_, ih (b == 45) h.2⟩
    cases up with
    | true => simpa using isTokenByte_upperByte b h.1
    | false => simpa using isTokenByte_lowerByte b h.1

lemma canonAux_canonAux (l : List Nat) :
    ∀ up : Bool, canonAux up (canonAux up l) = canonAux up l := by
  induction l with
  | nil => intro up; rfl
  | cons b rest ih =>
    intro up
    cases up with
    | true =>
      show upperByte (upperByte b) :: canonAux (upperByte b == 45) (canonAux (b == 45) rest)
        = upperByte b :: canonAux (b == 45) rest
      rw [upperByte_upperByte, upperByte_beq_45, ih (b == 45)]
    | false =>
      show lowerByte (lowerByte b) :: canonAux (lowerByte b == 45) (canonAux (b == 45) rest)
        = lowerByte b :: canonAux (b == 45) rest
      rw [lowerByte_lowerByte, lowerByte_beq_45, ih (b == 45)]

lemma canonicalMIMEHeaderKey_idem (s : HName) :
    canonicalMIMEHeaderKey (canonicalMIMEHeaderKey s) = canonicalMIMEHeaderKey s := by
  unfold canonicalMIMEHeaderKey
  by_cases h : s.all isTokenByte = true
  · simp only [h, if_true, canonAux_all_token s true h, canonAux_canonAux]
  · simp only [h]
    simp [h]

/-! ### Header-map lemmas -/

lemma headerAddCanon_pred (P : HName → Prop) :
    ∀ (h : HeaderMap) (k : HName) (v : String),
      (∀ p ∈ h, P p.fst) → P k → ∀ p ∈ headerAddCanon h k v, P p.fst := by
  intro h
  induction h with
  | nil =>
    intro k v _ hk p hp
    simp only [headerAddCanon, List.mem_singleton] at hp
    simpa [hp] using hk
  | cons q rest ih =>
    intro k v hh hk p hp
    rw [headerAddCanon] at hp
    split at hp
    · rcases List.mem_cons.mp hp with h1 | h1
      · simpa [h1] using hh q (List.mem_cons_self q rest)
      · exact hh p (List.mem_cons_of_mem q h1)
    · rcases List.mem_cons.mp hp with h1 | h1
      · simpa [h1] using hh q (List.mem_cons_self q rest)
      · exact ih k v (fun r hr => hh r (List.mem_cons_of_mem q hr)) hk p h1

lemma headerSetCanon_pred (P : HName → Prop) :
    ∀ (h : HeaderMap) (k : HName) (v : String),
      (∀ p ∈ h, P p.fst) → P k → ∀ p ∈ headerSetCanon h k v, P p.fst := by
  intro h
  induction h with
  | nil =>
    intro k v _ hk p hp
    simp only [headerSetCanon, List.mem_singleton] at hp
    simpa [hp] using hk
  | cons q rest ih =>
    intro k v hh hk p hp
    rw [headerSetCanon] at hp
    split at hp
    · rcases List.mem_cons.mp hp with h1 | h1
      · simpa [h1] using hh q (List.mem_cons_self q rest)
      · exact hh p (List.mem_cons_of_mem q h1)
    · rcases List.mem_cons.mp hp with h1 | h1
      · simpa [h1] using hh q (List.mem_cons_self q rest)
      · exact ih k v (fun r hr => hh r (List.mem_cons_of_mem q hr)) hk p h1

lemma headerAdd_pred (P : HName → Prop) (h : HeaderMap) (key : HName) (v : String)
    (hh : ∀ p ∈ h, P p.fst) (hk : P (canonicalMIMEHeaderKey key)) :
    ∀ p ∈ headerAdd h key v, P p.fst :=
  headerAddCanon_pred P h (canonicalMIMEHeaderKey key) v hh hk

lemma headerSet_pred (P : HName → Prop) (h : HeaderMap) (key : HName) (v : String)
    (hh : ∀ p ∈ h, P p.fst) (hk : P (canonicalMIMEHeaderKey key)) :
    ∀ p ∈ headerSet h key v, P p.fst :=
  headerSetCanon_pred P h (canonicalMIMEHeaderKey key) v hh hk

lemma foldl_headerAdd_pred (P : HName → Prop) (key : HName)
    (hk : P (canonicalMIMEHeaderKey key)) :
    ∀ (vs : List String) (d : HeaderMap), (∀ p ∈ d, P p.fst) →
      ∀ p ∈ vs.foldl (fun d v => headerAdd d key v) d, P p.fst := by
  intro vs
  induction vs with
  | nil => intro d hd; simpa using hd
  | cons v rest ih =>
    intro d hd
    rw [List.foldl_cons]
    exact ih (headerAdd d key v) (headerAdd_pred P d key v hd hk)

lemma buildHeaderMap_fold_keys :
    ∀ (raw : List (HName × String)) (acc : HeaderMap),
      (∀ p ∈ acc, canonicalMIMEHeaderKey p.fst = p.fst) →
      ∀ p ∈ raw.foldl (fun h q => headerAdd h q.fst q.snd) acc,
        canonicalMIMEHeaderKey p.fst = p.fst := by
  intro raw
  induction raw with
  | nil => intro acc hacc; simpa using hacc
  | cons q rest ih =>
    intro acc hacc
    rw [List.foldl_cons]
    exact ih (headerAdd acc q.fst q.snd)
      (headerAdd_pred (fun n => canonicalMIMEHeaderKey n = n) acc q.fst q.snd hacc
        (canonicalMIMEHeaderKey_idem q.fst))

lemma buildHeaderMap_keys (raw : List (HName × String)) :
    ∀ p ∈ buildHeaderMap raw, canonicalMIMEHeaderKey p.fst = p.fst :=
  buildHeaderMap_fold_keys raw [] (by simp)

/-! ### Lookup lemmas -/

lemma headerGetCanon?_eq_none (h : HeaderMap) (k : HName)
    (hx : ∀ p ∈ h, p.fst ≠ k) : headerGetCanon? h k = none := by
  unfold headerGetCanon?
  have hf : h.find? (fun p => p.fst = k) = none := by
    rw [List.find?_eq_none]
    intro p hp
    simpa using hx p hp
  rw [hf]

lemma headerGet?_eq_none (h : HeaderMap) (key : HName)
    (hx : ∀ p ∈ h, p.fst ≠ canonicalMIMEHeaderKey key) : headerGet? h key = none :=
  headerGetCanon?_eq_none h _ hx

lemma headerGetCanon?_setCanon_self (k : HName) (v : String) :
    ∀ h : HeaderMap, headerGetCanon? (headerSetCanon h k v) k = some [v] := by
  intro h
  induction h with
  | nil => simp [headerSetCanon, headerGetCanon?, List.find?]
  | cons q rest ih =>
    rw [headerSetCanon]
    by_cases hq : q.fst = k
    · rw [if_pos hq]
      unfold headerGetCanon?
      rw [List.find?_cons_of_pos _ (by simpa using hq)]
    · rw [if_neg hq]
      unfold headerGetCanon? at ih ⊢
      rw [List.find?_cons_of_neg _ (by simpa using hq)]
      exact ih

lemma headerGetCanon?_setCanon_other (k k2 : HName) (v : String) (hne : k2 ≠ k) :
    ∀ h : HeaderMap, headerGetCanon? (headerSetCanon h k v) k2 = headerGetCanon? h k2 := by
  intro h
  induction h with
  | nil =>
    simp only [headerSetCanon, headerGetCanon?]
    rw [List.find?_cons_of_neg _ (by simpa using fun hh => hne hh.symm)]
  | cons q rest ih =>
    rw [headerSetCanon]
    by_cases hq : q.fst = k
    · rw [if_pos hq]
      unfold headerGetCanon?
      have hq2 : ¬ (q.fst = k2) := by rw [hq]; exact fun hh => hne hh.symm
      rw [List.find?_cons_of_neg _ (by simpa using hq2),
        List.find?_cons_of_neg _ (by simpa using hq2)]
    · rw [if_neg hq]
      by_cases hq2 : q.fst = k2
      · unfold headerGetCanon?
        rw [List.find?_cons_of_pos _ (by simpa using hq2),
          List.find?_cons_of_pos _ (by simpa using hq2)]
      · unfold headerGetCanon? at ih ⊢
        rw [List.find?_cons_of_neg _ (by simpa using hq2),
          List.find?_cons_of_neg _ (by simpa using hq2)]
        exact ih

lemma headerGet?_headerSet_self (h : HeaderMap) (key : HName) (v : String) :
    headerGet? (headerSet h key v) key = some [v] :=
  headerGetCanon?_setCanon_self (canonicalMIMEHeaderKey key) v h

lemma headerGet?_headerSet_other (h : HeaderMap) (key key2 : HName) (v : String)
    (hne : canonicalMIMEHeaderKey key2 ≠ canonicalMIMEHeaderKey key) :
    headerGet? (headerSet h key v) key2 = headerGet? h key2 :=
  headerGetCanon?_setCanon_other (canonicalMIMEHeaderKey key)
    (canonicalMIMEHeaderKey key2) v hne h

/-! ## Forwarding client (src/proxy/client.go) -/

/-- The hop-by-hop header set, as listed (already in canonical form) in
both `copyHeaders` (src/proxy/client.go lines 70-80) and
`copyResponseHeaders` (src/proxy/handler.go lines 145-155). -/
def hopHeaders : List HName :=
  [strBytes "Connection", strBytes "Proxy-Connection", strBytes "Keep-Alive",
   strBytes "Proxy-Authenticate", strBytes "Proxy-Authorization", strBytes "Te",
   strBytes "Trailer", strBytes "Transfer-Encoding", strBytes "Upgrade"]

/-- The copy loop shared verbatim by `copyHeaders` (src/proxy/client.go
lines 82-88) and `copyResponseHeaders` (src/proxy/handler.go lines
157-163): every entry of the source header map whose (canonical) name is
not in the hop-by-hop set is `Add`ed, value by value, into a fresh
destination map. -/
def hopFilterCopy (src : HeaderMap) : HeaderMap :=
  src.foldl
    (fun dst p =>
      if p.fst ∈ hopHeaders then dst
      else p.snd.foldl (fun d v => headerAdd d p.fst v) dst)
    []

/-- `copyHeaders` (src/proxy/client.go lines 69-95): filter hop-by-hop
headers into the fresh outbound request's header map, then `Set`
`X-Forwarded-For` to the inbound remote address, `X-Forwarded-Proto` to
the constant `"http"`, and — only when the inbound `Host` is non-empty —
`X-Forwarded-Host` to that host. -/
def copyHeaders (srcHeader : HeaderMap) (remoteAddr : String) (host : String) : HeaderMap :=
  let dst := hopFilterCopy srcHeader
  let dst := headerSet dst (strBytes "X-Forwarded-For") remoteAddr
  let dst := headerSet dst (strBytes "X-Forwarded-Proto") "http"
  if host ≠ "" then headerSet dst (strBytes "X-Forwarded-Host") host else dst

/-- `copyResponseHeaders` (src/proxy/handler.go lines 144-164): the same
hop-by-hop filter applied to the upstream response's headers, written into
the (still empty) response writer's header map. -/
def copyResponseHeaders (srcHeader : HeaderMap) : HeaderMap :=
  hopFilterCopy srcHeader

/-! ### Hop-by-hop filter lemmas -/

lemma hopFilterFold_pred (P : HName → Prop) :
    ∀ (src : HeaderMap) (acc : HeaderMap),
      (∀ p ∈ src, p.fst ∉ hopHeaders → P (canonicalMIMEHeaderKey p.fst)) →
      (∀ p ∈ acc, P p.fst) →
      ∀ p ∈ src.foldl
          (fun (dst : HeaderMap) (p : HName × List String) =>
            if p.fst ∈ hopHeaders then dst
            else p.snd.foldl (fun d v => headerAdd d p.fst v) dst)
          acc, P p.fst := by
  intro src
  induction src with
  | nil => intro acc _ hacc; simpa using hacc
  | cons q rest ih =>
    intro acc hsrc hacc
    rw [List.foldl_cons]
    by_cases hq : q.fst ∈ hopHeaders
    · rw [if_pos hq]
      exact ih acc (fun r hr => hsrc r (List.mem_cons_of_mem q hr)) hacc
    · rw [if_neg hq]
      refine ih _ (fun r hr => hsrc r (List.mem_cons_of_mem q hr)) ?_
      exact foldl_headerAdd_pred P q.fst
        (hsrc q (List.mem_cons_self q rest) hq) q.snd acc hacc

lemma hopFilterCopy_pred (P : HName → Prop) (src : HeaderMap)
    (hsrc : ∀ p ∈ src, p.fst ∉ hopHeaders → P (canonicalMIMEHeaderKey p.fst)) :
    ∀ p ∈ hopFilterCopy src, P p.fst :=
  hopFilterFold_pred P src [] hsrc (by simp)

/-- The target-URL construction of `ForwardRequest` (src/proxy/client.go
lines 49-52): scheme `"://"` host, the inbound URL path verbatim, and
`"?"` plus the raw query appended exactly when the raw query is
non-empty. -/
def targetURL (scheme host path rawQuery : String) : String :=
  let t := scheme ++ "://" ++ host ++ path
  if rawQuery ≠ "" then t ++ "?" ++ rawQuery else t

/-! ## Dispatcher and endpoints (src/proxy/handler.go) -/

/-- An HTTP response as the handler writes it: status code, `Content-Type`
header when the handler sets one, body bytes. -/
structure HttpReply where
  status : Nat
  contentType : String
  body : String
deriving Repr, DecidableEq

/-- The failure branch of `Handler.ServeHTTP` (src/proxy/handler.go lines
52-74): when `ForwardRequest` fails, status and message default to 502 /
`"Proxy error"` and switch to 504 / `"Request timeout"` exactly when the
request context reports deadline-exceeded; the body is the JSON object
with the message and an RFC3339 timestamp (`now` stands for
`time.Now().Format(time.RFC3339)`), and `Content-Type` is set to
`application/json`. -/
def serveHTTPFailure (deadlineExceeded : Bool) (now : String) : HttpReply :=
  let statusCode := if deadlineExceeded then 504 else 502
  let errorMsg := if deadlineExceeded then "Request timeout" else "Proxy error"
  { status := statusCode
    contentType := "application/json"
    body := "\x7b\"error\":\"" ++ errorMsg ++ "\",\"timestamp\":\"" ++ now ++ "\"\x7d" }

/-- The 30-second per-request deadline `Handler.ServeHTTP` derives
(src/proxy/handler.go line 48). -/
def dispatchTimeoutSeconds : Nat := 30

/-- `Handler.HealthCheck` (src/proxy/handler.go lines 101-131) as a
function of the inbound method and of the two fallible steps: building
the HEAD probe request (`newRequestOk`) and performing it (`probeOk`).
Non-GET methods get `http.Error`'s plain-text 405; a failed step gets a
plain-text 503; success gets the JSON healthy body (`now` stands for the
RFC3339 timestamp).  `http.Error` terminates its message with `\n` and
sets a `text/plain` content type. -/
def healthCheck (method : String) (newRequestOk probeOk : Bool) (now : String) : HttpReply :=
  if method ≠ "GET" then
    { status := 405, contentType := "text/plain; charset=utf-8", body := "Method not allowed\n" }
  else if newRequestOk = false then
    { status := 503, contentType := "text/plain; charset=utf-8", body := "Health check failed\n" }
  else if probeOk = false then
    { status := 503, contentType := "text/plain; charset=utf-8", body := "Health check failed\n" }
  else
    { status := 200, contentType := "application/json"
      body := "\x7b\"status\":\"healthy\",\"timestamp\":\"" ++ now ++ "\"\x7d" }

/-- The URL of the health probe (src/proxy/handler.go line 110): the
configured target scheme and host. -/
def healthProbeURL (c : Config) : String := c.target.scheme ++ "://" ++ c.target.host

/-- The method of the health probe (src/proxy/handler.go line 110). -/
def healthProbeMethod : String := "HEAD"

/-- The 5-second deadline of the health probe (src/proxy/handler.go line 107). -/
def healthProbeTimeoutSeconds : Nat := 5

/-- `Handler.Metrics` (src/proxy/handler.go lines 133-142): 405 for
non-GET, otherwise the static JSON counters with `requests_total`
hard-coded to 0 (`uptime` stands for the formatted
`time.Since(time.Now())` duration string). -/
def metrics (method : String) (uptime : String) : HttpReply :=
  if method ≠ "GET" then
    { status := 405, contentType := "text/plain; charset=utf-8", body := "Method not allowed\n" }
  else
    { status := 200, contentType := "application/json"
      body := "\x7b\"metrics\":\x7b\"uptime\":\"" ++ uptime ++ "\",\"requests_total\":0\x7d\x7d" }

/-! ### String and configuration lemmas -/

lemma str_append_assoc (a b c : String) : a ++ b ++ c = a ++ (b ++ c) := by
  cases a with
  | mk da =>
    cases b with
    | mk db =>
      cases c with
      | mk dc =>
        show String.mk (da ++ db ++ dc) = String.mk (da ++ (db ++ dc))
        rw [List.append_assoc]

lemma overridePort_server_host (env : Env) (c : Config) :
    (overridePort env c).server.host = c.server.host := by
  simp only [overridePort]; split <;> (try split) <;> rfl

lemma overridePort_target (env : Env) (c : Config) :
    (overridePort env c).target = c.target := by
  simp only [overridePort]; split <;> (try split) <;> rfl

lemma overridePort_proxy (env : Env) (c : Config) :
    (overridePort env c).proxy = c.proxy := by
  simp only [overridePort]; split <;> (try split) <;> rfl

lemma overridePort_logging (env : Env) (c : Config) :
    (overridePort env c).logging = c.logging := by
  simp only [overridePort]; split <;> (try split) <;> rfl

lemma overrideHost_server_port (env : Env) (c : Config) :
    (overrideHost env c).server.port = c.server.port := by
  simp only [overrideHost]; split <;> rfl

lemma overrideHost_target (env : Env) (c : Config) :
    (overrideHost env c).target = c.target := by
  simp only [overrideHost]; split <;> rfl

lemma overrideHost_proxy (env : Env) (c : Config) :
    (overrideHost env c).proxy = c.proxy := by
  simp only [overrideHost]; split <;> rfl

lemma overrideHost_logging (env : Env) (c : Config) :
    (overrideHost env c).logging = c.logging := by
  simp only [overrideHost]; split <;> rfl

lemma overrideTargetHost_server (env : Env) (c : Config) :
    (overrideTargetHost env c).server = c.server := by
  simp only [overrideTargetHost]; split <;> rfl

lemma overrideTargetHost_target_scheme (env : Env) (c : Config) :
    (overrideTargetHost env c).target.scheme = c.target.scheme := by
  simp only [overrideTargetHost]; split <;> rfl

lemma overrideTargetHost_proxy (env : Env) (c : Config) :
    (overrideTargetHost env c).proxy = c.proxy := by
  simp only [overrideTargetHost]; split <;> rfl

lemma overrideTargetHost_logging (env : Env) (c : Config) :
    (overrideTargetHost env c).logging = c.logging := by
  simp only [overrideTargetHost]; split <;> rfl

lemma overrideTargetScheme_server (env : Env) (c : Config) :
    (overrideTargetScheme env c).server = c.server := by
  simp only [overrideTargetScheme]; split <;> rfl

lemma overrideTargetScheme_target_host (env : Env) (c : Config) :
    (overrideTargetScheme env c).target.host = c.target.host := by
  simp only [overrideTargetScheme]; split <;> rfl

lemma overrideTargetScheme_proxy (env : Env) (c : Config) :
    (overrideTargetScheme env c).proxy = c.proxy := by
  simp only [overrideTargetScheme]; split <;> rfl

lemma overrideTargetScheme_logging (env : Env) (c : Config) :
    (overrideTargetScheme env c).logging = c.logging := by
  simp only [overrideTargetScheme]; split <;> rfl

lemma overrideProxyUrl_server (env : Env) (c : Config) :
    (overrideProxyUrl env c).server = c.server := by
  simp only [overrideProxyUrl]; split <;> rfl

lemma overrideProxyUrl_target (env : Env) (c : Config) :
    (overrideProxyUrl env c).target = c.target := by
  simp only [overrideProxyUrl]; split <;> rfl

lemma overrideProxyUrl_proxy_username (env : Env) (c : Config) :
    (overrideProxyUrl env c).proxy.username = c.proxy.username := by
  simp only [overrideProxyUrl]; split <;> rfl

lemma overrideProxyUrl_proxy_password (env : Env) (c : Config) :
    (overrideProxyUrl env c).proxy.password = c.proxy.password := by
  simp only [overrideProxyUrl]; split <;> rfl

lemma overrideProxyUrl_logging (env : Env) (c : Config) :
    (overrideProxyUrl env c).logging = c.logging := by
  simp only [overrideProxyUrl]; split <;> rfl

lemma overrideProxyUsername_server (env : Env) (c : Config) :
    (overrideProxyUsername env c).server = c.server := by
  simp only [overrideProxyUsername]; split <;> rfl

lemma overrideProxyUsername_target (env : Env) (c : Config) :
    (overrideProxyUsername env c).target = c.target := by
  simp only [overrideProxyUsername]; split <;> rfl

lemma overrideProxyUsername_proxy_url (env : Env) (c : Config) :
    (overrideProxyUsername env c).proxy.url = c.proxy.url := by
  simp only [overrideProxyUsername]; split <;> rfl

lemma overrideProxyUsername_proxy_password (env : Env) (c : Config) :
    (overrideProxyUsername env c).proxy.password = c.proxy.password := by
  simp only [overrideProxyUsername]; split <;> rfl

lemma overrideProxyUsername_logging (env : Env) (c : Config) :
    (overrideProxyUsername env c).logging = c.logging := by
  simp only [overrideProxyUsername]; split <;> rfl

lemma overrideProxyPassword_server (env : Env) (c : Config) :
    (overrideProxyPassword env c).server = c.server := by
  simp only [overrideProxyPassword]; split <;> rfl

lemma overrideProxyPassword_target (env : Env) (c : Config) :
    (overrideProxyPassword env c).target = c.target := by
  simp only [overrideProxyPassword]; split <;> rfl

lemma overrideProxyPassword_proxy_url (env : Env) (c : Config) :
    (overrideProxyPassword env c).proxy.url = c.proxy.url := by
  simp only [overrideProxyPassword]; split <;> rfl

lemma overrideProxyPassword_proxy_username (env : Env) (c : Config) :
    (overrideProxyPassword env c).proxy.username = c.proxy.username := by
  simp only [overrideProxyPassword]; split <;> rfl

lemma overrideProxyPassword_logging (env : Env) (c : Config) :
    (overrideProxyPassword env c).logging = c.logging := by
  simp only [overrideProxyPassword]; split <;> rfl

lemma overrideLogLevel_server (env : Env) (c : Config) :
    (overrideLogLevel env c).server = c.server := by
  simp only [overrideLogLevel]; split <;> rfl

lemma overrideLogLevel_target (env : Env) (c : Config) :
    (overrideLogLevel env c).target = c.target := by
  simp only [overrideLogLevel]; split <;> rfl

lemma overrideLogLevel_proxy (env : Env) (c : Config) :
    (overrideLogLevel env c).proxy = c.proxy := by
  simp only [overrideLogLevel]; split <;> rfl

lemma applyEnv_server_port (env : Env) (c : Config) :
    (applyEnvironmentOverrides env c).server.port =
      (if env.proxyPort ≠ "" then
        match atoi env.proxyPort with
        | some p => p
        | none => c.server.port
      else c.server.port) := by
  simp only [applyEnvironmentOverrides, overrideLogLevel_server, overrideProxyPassword_server,
    overrideProxyUsername_server, overrideProxyUrl_server, overrideTargetScheme_server,
    overrideTargetHost_server, overrideHost_server_port]
  simp only [overridePort]
  split
  · split <;> rfl
  · rfl

lemma applyEnv_server_host (env : Env) (c : Config) :
    (applyEnvironmentOverrides env c).server.host =
      (if env.proxyHost ≠ "" then env.proxyHost else c.server.host) := by
  simp only [applyEnvironmentOverrides, overrideLogLevel_server, overrideProxyPassword_server,
    overrideProxyUsername_server, overrideProxyUrl_server, overrideTargetScheme_server,
    overrideTargetHost_server]
  simp only [overrideHost]
  split <;> simp [overridePort_server_host]

lemma applyEnv_target_host (env : Env) (c : Config) :
    (applyEnvironmentOverrides env c).target.host =
      (if env.targetHost ≠ "" then env.targetHost else c.target.host) := by
  simp only [applyEnvironmentOverrides, overrideLogLevel_target, overrideProxyPassword_target,
    overrideProxyUsername_target, overrideProxyUrl_target, overrideTargetScheme_target_host]
  simp only [overrideTargetHost]
  split <;> simp [overrideHost_target, overridePort_target]

lemma applyEnv_target_scheme (env : Env) (c : Config) :
    (applyEnvironmentOverrides env c).target.scheme =
      (if env.targetScheme ≠ "" then env.targetScheme else c.target.scheme) := by
  simp only [applyEnvironmentOverrides, overrideLogLevel_target, overrideProxyPassword_target,
    overrideProxyUsername_target, overrideProxyUrl_target]
  simp only [overrideTargetScheme]
  split <;> simp [overrideTargetHost_target_scheme, overrideHost_target, overridePort_target]

lemma applyEnv_proxy_url (env : Env) (c : Config) :
    (applyEnvironmentOverrides env c).proxy.url =
      (if env.proxyUrl ≠ "" then env.proxyUrl else c.proxy.url) := by
  simp only [applyEnvironmentOverrides, overrideLogLevel_proxy,
    overrideProxyPassword_proxy_url, overrideProxyUsername_proxy_url]
  simp only [overrideProxyUrl]
  split <;> simp [overrideTargetScheme_proxy, overrideTargetHost_proxy, overrideHost_proxy,
    overridePort_proxy]

lemma applyEnv_proxy_username (env : Env) (c : Config) :
    (applyEnvironmentOverrides env c).proxy.username =
      (if env.proxyUsername ≠ "" then env.proxyUsername else c.proxy.username) := by
  simp only [applyEnvironmentOverrides, overrideLogLevel_proxy,
    overrideProxyPassword_proxy_username]
  simp only [overrideProxyUsername]
  split <;> simp [overrideProxyUrl_proxy_username, overrideTargetScheme_proxy,
    overrideTargetHost_proxy, overrideHost_proxy, overridePort_proxy]

lemma applyEnv_proxy_password (env : Env) (c : Config) :
    (applyEnvironmentOverrides env c).proxy.password =
      (if env.proxyPassword ≠ "" then env.proxyPassword else c.proxy.password) := by
  simp only [applyEnvironmentOverrides, overrideLogLevel_proxy]
  simp only [overrideProxyPassword]
  split <;> simp [overrideProxyUsername_proxy_password, overrideProxyUrl_proxy_password,
    overrideTargetScheme_proxy, overrideTargetHost_proxy, overrideHost_proxy,
    overridePort_proxy]

lemma applyEnv_logging_level (env : Env) (c : Config) :
    (applyEnvironmentOverrides env c).logging.level =
      (if env.logLevel ≠ "" then env.logLevel else c.logging.level) := by
  simp only [applyEnvironmentOverrides]
  simp only [overrideLogLevel]
  split <;> simp [overrideProxyPassword_logging, overrideProxyUsername_logging,
    overrideProxyUrl_logging, overrideTargetScheme_logging, overrideTargetHost_logging,
    overrideHost_logging, overridePort_logging]

/-! ## Claim theorems -/

/-- Claim C1: for every forwarding failure, the dispatcher answers 504 with
a JSON body containing "error":"Request timeout" when the failure is
classified as deadline-exceeded, and 502 with "error":"Proxy error" for
every other failure; in both cases the body carries the RFC3339 timestamp
and the Content-Type is application/json. -/
theorem dispatcher_failure_mapping (deadlineExceeded : Bool) (now : String) :
    (serveHTTPFailure true now).status = 504 ∧
    (serveHTTPFailure true now).body
      = "\x7b\"error\":\"Request timeout\",\"timestamp\":\"" ++ now ++ "\"\x7d" ∧
    (serveHTTPFailure false now).status = 502 ∧
    (serveHTTPFailure false now).body
      = "\x7b\"error\":\"Proxy error\",\"timestamp\":\"" ++ now ++ "\"\x7d" ∧
    (serveHTTPFailure deadlineExceeded now).contentType = "application/json" ∧
    (∃ t1 t2, (serveHTTPFailure true now).body
      = t1 ++ "\"error\":\"Request timeout\"" ++ t2) ∧
    (∃ t1 t2, (serveHTTPFailure false now).body
      = t1 ++ "\"error\":\"Proxy error\"" ++ t2) := by
  refine ⟨rfl, rfl, rfl, rfl, ?_, ?_, ?_⟩
  · cases deadlineExceeded <;> rfl
  · exact ⟨"\x7b", ",\"timestamp\":\"" ++ now ++ "\"\x7d", rfl⟩
  · exact ⟨"\x7b", ",\"timestamp\":\"" ++ now ++ "\"\x7d", rfl⟩

/-- Claim C3: the outbound target URL is the configured scheme, "://", the
configured host, and the inbound path, with "?" plus the query string
appended exactly when the query is non-empty; an inbound /orders?id=5
yields exactly scheme://host/orders?id=5. -/
theorem target_url_construction (scheme host path rawQuery : String) :
    (rawQuery ≠ "" → targetURL scheme host path rawQuery
      = scheme ++ "://" ++ host ++ path ++ "?" ++ rawQuery) ∧
    (rawQuery = "" → targetURL scheme host path rawQuery
      = scheme ++ "://" ++ host ++ path) ∧
    targetURL scheme host "/orders" "id=5" = scheme ++ "://" ++ host ++ "/orders?id=5" := by
  refine ⟨?_, ?_, ?_⟩
  · intro h
    simp only [targetURL, if_pos h]
  · intro h
    simp only [targetURL, h]
    simp
  · simp only [targetURL]
    rw [if_pos (by decide : ("id=5" : String) ≠ "")]
    simp only [str_append_assoc]
    rfl

/-- Witness for C3 at the /orders?id=5 example and at an empty query. -/
theorem target_url_construction_witness :
    targetURL "https" "target.com" "/orders" "id=5" = "https://target.com/orders?id=5" ∧
    targetURL "https" "target.com" "/orders" "" = "https://target.com/orders" :=
  ⟨(target_url_construction "https" "target.com" "/orders" "id=5").1 (by decide),
   (target_url_construction "https" "target.com" "/orders" "").2.1 rfl⟩

/-- Claim C7: with configured minimum level ERROR, emitting one DEBUG, one
INFO, one WARN and one ERROR message produces exactly one output line, the
ERROR one; in general a message is emitted iff its level is at least the
configured minimum. -/
theorem logger_level_filtering :
    runLogger .ERROR
        [(.DEBUG, "debug message"), (.INFO, "info message"),
         (.WARN, "warn message"), (.ERROR, "error message")]
      = [(.ERROR, "error message")] ∧
    (runLogger .ERROR
        [(.DEBUG, "debug message"), (.INFO, "info message"),
         (.WARN, "warn message"), (.ERROR, "error message")]).length = 1 ∧
    ∀ minLevel level : LogLevel,
      (!logDrops minLevel level) = decide (minLevel.toNat ≤ level.toNat) := by
  refine ⟨by decide, by decide, ?_⟩
  intro a b
  cases a <;> cases b <;> rfl

/-- Claim C9: when the configuration file does not exist, loading falls
back to the built-in default configuration (once it is written to disk)
and returns it for every environment — environment overrides and
validation are skipped, so a set environment variable does not take
precedence in this path. -/
theorem fallback_skips_env_and_validation (fileCfg : Config) (env : Env) :
    loadConfigWithFallback false true fileCfg env = .ok DefaultConfig ∧
    loadConfigWithFallback false true fileCfg { Env.empty with proxyPort := "9999" }
      = .ok DefaultConfig ∧
    DefaultConfig.server.port = 8080 ∧
    atoi "9999" = some 9999 ∧
    applyEnvironmentOverrides { Env.empty with proxyPort := "9999" } DefaultConfig
      ≠ DefaultConfig := by
  refine ⟨rfl, rfl, rfl, by decide, by decide⟩

/-- Claim C10: log-level parsing is case-insensitive over debug, info,
warn, warning and error — including the Unicode dotless i U+0131, which
uppercases into the ASCII keyword letters — and every string whose
uppercase form is none of DEBUG, INFO, WARN, WARNING, ERROR, the empty
string included, falls back to the default INFO. -/
theorem parse_log_level_spec :
    (∀ s t : String, strToUpper s = strToUpper t → parseLogLevel s = parseLogLevel t) ∧
    parseLogLevel "debug" = .DEBUG ∧ parseLogLevel "DeBuG" = .DEBUG ∧
    parseLogLevel "info" = .INFO ∧ parseLogLevel "INFO" = .INFO ∧
    parseLogLevel "warn" = .WARN ∧ parseLogLevel "Warning" = .WARN ∧
    parseLogLevel "wArNiNg" = .WARN ∧ parseLogLevel "warnıng" = .WARN ∧
    parseLogLevel "error" = .ERROR ∧ parseLogLevel "ERROR" = .ERROR ∧
    (∀ s : String, strToUpper s ≠ "DEBUG" → strToUpper s ≠ "INFO" →
      strToUpper s ≠ "WARN" → strToUpper s ≠ "WARNING" → strToUpper s ≠ "ERROR" →
      parseLogLevel s = .INFO) ∧
    parseLogLevel "" = .INFO := by
  refine ⟨?_, by decide, by decide, by decide, by decide, by decide, by decide,
    by decide, by decide, by decide, by decide, ?_, by decide⟩
  · intro s t h
    simp only [parseLogLevel]
    rw [h]
  · intro s h1 h2 h3 h4 h5
    simp only [parseLogLevel]
    rw [if_neg h1, if_neg h2, if_neg (fun h => h.elim h3 h4), if_neg h5]

/-- Witness for C10 at the concrete unrecognised string "bogus". -/
theorem parse_log_level_spec_witness : parseLogLevel "bogus" = .INFO := by
  obtain ⟨-, -, -, -, -, -, -, -, -, -, -, hd, -⟩ := parse_log_level_spec
  exact hd "bogus" (by decide) (by decide) (by decide) (by decide) (by decide)

/-- Claim C5: validation succeeds exactly when the server port lies in
(0,65535], the target host, proxy URL, proxy username and proxy password
are non-empty, and the target scheme is http or https; and LoadConfig only
ever returns configurations that validate. -/
theorem validate_config_iff (c : Config) :
    (validateConfig c = .ok () ↔
      (0 < c.server.port ∧ c.server.port ≤ 65535 ∧ c.target.host ≠ "" ∧
        (c.target.scheme = "http" ∨ c.target.scheme = "https") ∧
        c.proxy.url ≠ "" ∧ c.proxy.username ≠ "" ∧ c.proxy.password ≠ "")) ∧
    ∀ (fileCfg : Config) (env : Env) (c2 : Config),
      LoadConfig fileCfg env = .ok c2 → validateConfig c2 = .ok () := by
  constructor
  · unfold validateConfig
    constructor
    · intro h
      by_cases h1 : c.server.port ≤ 0 ∨ c.server.port > 65535
      · rw [if_pos h1] at h; exact absurd h (by simp)
      rw [if_neg h1] at h
      by_cases h2 : c.target.host = ""
      · rw [if_pos h2] at h; exact absurd h (by simp)
      rw [if_neg h2] at h
      by_cases h3 : c.target.scheme ≠ "http" ∧ c.target.scheme ≠ "https"
      · rw [if_pos h3] at h; exact absurd h (by simp)
      rw [if_neg h3] at h
      by_cases h4 : c.proxy.url = ""
      · rw [if_pos h4] at h; exact absurd h (by simp)
      rw [if_neg h4] at h
      by_cases h5 : c.proxy.username = ""
      · rw [if_pos h5] at h; exact absurd h (by simp)
      rw [if_neg h5] at h
      by_cases h6 : c.proxy.password = ""
      · rw [if_pos h6] at h; exact absurd h (by simp)
      refine ⟨by omega, by omega, h2, ?_, h4, h5, h6⟩
      rcases Classical.em (c.target.scheme = "http") with hs | hs
      · exact Or.inl hs
      · exact Or.inr (by_contra fun hs2 => h3 ⟨hs, hs2⟩)
    · rintro ⟨p1, p2, hh, hs, hu, hn, hp⟩
      rw [if_neg (by omega), if_neg hh, if_neg (fun hc => hs.elim hc.1 hc.2),
        if_neg hu, if_neg hn, if_neg hp]
  · intro fileCfg env c2 h
    unfold LoadConfig at h
    rcases hv : validateConfig (applyEnvironmentOverrides env fileCfg) with e | u
    · simp only [hv] at h
      exact Except.noConfusion h
    · simp only [hv, Except.ok.injEq] at h
      rw [← h]
      cases u
      exact hv

/-- Witness for C5 at the built-in default configuration. -/
theorem validate_config_iff_witness :
    (0 < DefaultConfig.server.port ∧ DefaultConfig.server.port ≤ 65535 ∧
      DefaultConfig.target.host ≠ "" ∧
      (DefaultConfig.target.scheme = "http" ∨ DefaultConfig.target.scheme = "https") ∧
      DefaultConfig.proxy.url ≠ "" ∧ DefaultConfig.proxy.username ≠ "" ∧
      DefaultConfig.proxy.password ≠ "") ∧
    validateConfig DefaultConfig = .ok () :=
  ⟨(validate_config_iff DefaultConfig).1.mp rfl,
   (validate_config_iff DefaultConfig).2 DefaultConfig Env.empty DefaultConfig rfl⟩

/-- An environment that sets only PROXY_PORT, to the non-numeric value
"abc". -/
def envPortAbc : Env := { Env.empty with proxyPort := "abc" }

/-- Counterexample to claim C6 as stated: PROXY_PORT is set to the
non-empty value "abc", yet the loaded configuration keeps the file's port
8080 — the field does not equal the environment value, because
strconv.Atoi fails and the override block silently keeps the file
value. -/
theorem env_override_counterexample :
    envPortAbc.proxyPort = "abc" ∧ envPortAbc.proxyPort ≠ "" ∧
    LoadConfig DefaultConfig envPortAbc = .ok DefaultConfig ∧
    DefaultConfig.server.port = 8080 ∧
    atoi envPortAbc.proxyPort = none ∧
    toString DefaultConfig.server.port ≠ envPortAbc.proxyPort := by
  refine ⟨rfl, by decide, rfl, rfl, by decide, by decide⟩

/-- Claim C6 (amended): every documented environment variable set to a
non-empty value takes precedence over the file value in the loaded
configuration — except the port, whose override applies only when the
value parses as an integer; a set but non-numeric PROXY_PORT leaves the
file's port in place. -/
theorem env_overrides_take_precedence (fileCfg : Config) (env : Env) (c : Config)
    (h : LoadConfig fileCfg env = .ok c) :
    (∀ p : Int, env.proxyPort ≠ "" → atoi env.proxyPort = some p → c.server.port = p) ∧
    (env.proxyPort ≠ "" → atoi env.proxyPort = none →
      c.server.port = fileCfg.server.port) ∧
    (env.proxyHost ≠ "" → c.server.host = env.proxyHost) ∧
    (env.targetHost ≠ "" → c.target.host = env.targetHost) ∧
    (env.targetScheme ≠ "" → c.target.scheme = env.targetScheme) ∧
    (env.proxyUrl ≠ "" → c.proxy.url = env.proxyUrl) ∧
    (env.proxyUsername ≠ "" → c.proxy.username = env.proxyUsername) ∧
    (env.proxyPassword ≠ "" → c.proxy.password = env.proxyPassword) ∧
    (env.logLevel ≠ "" → c.logging.level = env.logLevel) := by
  have hc : c = applyEnvironmentOverrides env fileCfg := by
    unfold LoadConfig at h
    rcases hv : validateConfig (applyEnvironmentOverrides env fileCfg) with e | u
    · simp only [hv] at h
      exact Except.noConfusion h
    · simp only [hv, Except.ok.injEq] at h
      exact h.symm
  subst hc
  refine ⟨?_, ?_, ?_, ?_, ?_, ?_, ?_, ?_, ?_⟩
  · intro p hne hp
    rw [applyEnv_server_port, if_pos hne, hp]
  · intro hne hp
    rw [applyEnv_server_port, if_pos hne, hp]
  · intro hne
    rw [applyEnv_server_host, if_pos hne]
  · intro hne
    rw [applyEnv_target_host, if_pos hne]
  · intro hne
    rw [applyEnv_target_scheme, if_pos hne]
  · intro hne
    rw [applyEnv_proxy_url, if_pos hne]
  · intro hne
    rw [applyEnv_proxy_username, if_pos hne]
  · intro hne
    rw [applyEnv_proxy_password, if_pos hne]
  · intro hne
    rw [applyEnv_logging_level, if_pos hne]

/-- An environment overriding the port (numerically) and the server
host. -/
def envNineNine : Env := { Env.empty with proxyPort := "9999", proxyHost := "127.0.0.1" }

/-- The configuration produced from the defaults under `envNineNine`. -/
def cfgNineNine : Config :=
  { DefaultConfig with server := { port := 9999, host := "127.0.0.1" } }

/-- Witness for the amended C6: a numeric PROXY_PORT of 9999 and a
PROXY_HOST override land in the loaded configuration. -/
theorem env_overrides_take_precedence_witness :
    cfgNineNine.server.port = 9999 ∧ cfgNineNine.server.host = "127.0.0.1" :=
  ⟨(env_overrides_take_precedence DefaultConfig envNineNine cfgNineNine rfl).1
      9999 (by decide) rfl,
   (env_overrides_take_precedence DefaultConfig envNineNine cfgNineNine rfl).2.2.1
      (by decide)⟩

/-- Claim C2: every header whose canonical form lies in the hop-by-hop set
— i.e. any letter-case variant of Connection, Proxy-Connection,
Keep-Alive, Proxy-Authenticate, Proxy-Authorization, Te, Trailer,
Transfer-Encoding or Upgrade — is absent from the outbound request headers
built by copyHeaders and from the response headers relayed by
copyResponseHeaders, for every inbound request and response. -/
theorem hop_headers_absent (raw rawResp : List (HName × String))
    (remoteAddr host : String) (name : HName)
    (hname : canonicalMIMEHeaderKey name ∈ hopHeaders) :
    headerGet? (copyHeaders (buildHeaderMap raw) remoteAddr host) name = none ∧
    headerGet? (copyResponseHeaders (buildHeaderMap rawResp)) name = none := by
  have hhop : ∀ (src : List (HName × String)),
      ∀ p ∈ hopFilterCopy (buildHeaderMap src),
        p.fst ≠ canonicalMIMEHeaderKey name := by
    intro src
    refine hopFilterCopy_pred (fun n => n ≠ canonicalMIMEHeaderKey name)
      (buildHeaderMap src) ?_
    intro p hp hnot
    rw [buildHeaderMap_keys src p hp]
    intro heq
    exact hnot (by rw [heq]; exact hname)
  have hXFF : canonicalMIMEHeaderKey (strBytes "X-Forwarded-For")
      ≠ canonicalMIMEHeaderKey name := by
    have hmem : canonicalMIMEHeaderKey (strBytes "X-Forwarded-For") ∉ hopHeaders := by
      decide
    exact fun heq => hmem (by rw [heq]; exact hname)
  have hXFP : canonicalMIMEHeaderKey (strBytes "X-Forwarded-Proto")
      ≠ canonicalMIMEHeaderKey name := by
    have hmem : canonicalMIMEHeaderKey (strBytes "X-Forwarded-Proto") ∉ hopHeaders := by
      decide
    exact fun heq => hmem (by rw [heq]; exact hname)
  have hXFH : canonicalMIMEHeaderKey (strBytes "X-Forwarded-Host")
      ≠ canonicalMIMEHeaderKey name := by
    have hmem : canonicalMIMEHeaderKey (strBytes "X-Forwarded-Host") ∉ hopHeaders := by
      decide
    exact fun heq => hmem (by rw [heq]; exact hname)
  have habs2 := headerSet_pred (fun n => n ≠ canonicalMIMEHeaderKey name)
    (hopFilterCopy (buildHeaderMap raw)) (strBytes "X-Forwarded-For") remoteAddr
    (hhop raw) hXFF
  have habs3 := headerSet_pred (fun n => n ≠ canonicalMIMEHeaderKey name)
    _ (strBytes "X-Forwarded-Proto") "http" habs2 hXFP
  refine ⟨?_, headerGet?_eq_none _ _ (hhop rawResp)⟩
  simp only [copyHeaders]
  by_cases hh : host ≠ ""
  · rw [if_pos hh]
    exact headerGet?_eq_none _ _
      (headerSet_pred (fun n => n ≠ canonicalMIMEHeaderKey name)
        _ (strBytes "X-Forwarded-Host") host habs3 hXFH)
  · rw [if_neg hh]
    exact headerGet?_eq_none _ _ habs3

/-- Witness for C2: an upper-cased Connection header and a lower-cased
transfer-encoding header are both stripped. -/
theorem hop_headers_absent_witness :
    headerGet? (copyHeaders (buildHeaderMap
        [(strBytes "CONNECTION", "close"), (strBytes "te", "trailers"),
         (strBytes "X-Custom", "1")]) "10.0.0.1:443" "example.com")
      (strBytes "connection") = none ∧
    headerGet? (copyResponseHeaders (buildHeaderMap
        [(strBytes "transfer-encoding", "chunked"),
         (strBytes "Content-Type", "text/html")]))
      (strBytes "Transfer-Encoding") = none :=
  ⟨(hop_headers_absent
      [(strBytes "CONNECTION", "close"), (strBytes "te", "trailers"),
       (strBytes "X-Custom", "1")] [] "10.0.0.1:443" "example.com"
      (strBytes "connection") (by decide)).1,
   (hop_headers_absent []
      [(strBytes "transfer-encoding", "chunked"),
       (strBytes "Content-Type", "text/html")] "" ""
      (strBytes "Transfer-Encoding") (by decide)).2⟩

/-- Claim C4: the outbound request carries X-Forwarded-For overwritten to
the inbound remote address, X-Forwarded-Proto equal to the constant
"http" regardless of the inbound scheme, and X-Forwarded-Host set to the
inbound Host exactly when that Host is non-empty — when Host is empty no
set is performed, so the header is whatever the plain hop-filtered copy
produced. -/
theorem x_forwarded_headers (raw : List (HName × String)) (remoteAddr host : String) :
    headerGet? (copyHeaders (buildHeaderMap raw) remoteAddr host)
      (strBytes "X-Forwarded-For") = some [remoteAddr] ∧
    headerGet? (copyHeaders (buildHeaderMap raw) remoteAddr host)
      (strBytes "X-Forwarded-Proto") = some ["http"] ∧
    (host ≠ "" → headerGet? (copyHeaders (buildHeaderMap raw) remoteAddr host)
      (strBytes "X-Forwarded-Host") = some [host]) ∧
    (host = "" → headerGet? (copyHeaders (buildHeaderMap raw) remoteAddr host)
        (strBytes "X-Forwarded-Host")
      = headerGet? (hopFilterCopy (buildHeaderMap raw)) (strBytes "X-Forwarded-Host")) := by
  have hPF : canonicalMIMEHeaderKey (strBytes "X-Forwarded-Proto")
      ≠ canonicalMIMEHeaderKey (strBytes "X-Forwarded-For") := by decide
  have hHF : canonicalMIMEHeaderKey (strBytes "X-Forwarded-For")
      ≠ canonicalMIMEHeaderKey (strBytes "X-Forwarded-Host") := by decide
  have hHP : canonicalMIMEHeaderKey (strBytes "X-Forwarded-Proto")
      ≠ canonicalMIMEHeaderKey (strBytes "X-Forwarded-Host") := by decide
  refine ⟨?_, ?_, ?_, ?_⟩
  · simp only [copyHeaders]
    by_cases hh : host ≠ ""
    · rw [if_pos hh, headerGet?_headerSet_other _ _ _ _ hHF,
        headerGet?_headerSet_other _ _ _ _ hPF.symm, headerGet?_headerSet_self]
    · rw [if_neg hh, headerGet?_headerSet_other _ _ _ _ hPF.symm,
        headerGet?_headerSet_self]
  · simp only [copyHeaders]
    by_cases hh : host ≠ ""
    · rw [if_pos hh, headerGet?_headerSet_other _ _ _ _ hHP,
        headerGet?_headerSet_self]
    · rw [if_neg hh, headerGet?_headerSet_self]
  · intro hh
    simp only [copyHeaders]
    rw [if_pos hh, headerGet?_headerSet_self]
  · intro hh
    simp only [copyHeaders]
    rw [if_neg (fun k => k hh), headerGet?_headerSet_other _ _ _ _ hHP.symm,
      headerGet?_headerSet_other _ _ _ _ hHF.symm]

/-- Witness for C4: a pre-existing inbound X-Forwarded-For value is
overwritten by the remote address, X-Forwarded-Proto is "http", the
non-empty Host lands in X-Forwarded-Host, and with an empty Host the
header equals the plain hop-filtered copy. -/
theorem x_forwarded_headers_witness :
    headerGet? (copyHeaders (buildHeaderMap
        [(strBytes "X-Forwarded-For", "9.9.9.9"), (strBytes "Accept", "text/html")])
        "10.0.0.1:443" "example.com") (strBytes "X-Forwarded-For")
      = some ["10.0.0.1:443"] ∧
    headerGet? (copyHeaders (buildHeaderMap
        [(strBytes "X-Forwarded-For", "9.9.9.9"), (strBytes "Accept", "text/html")])
        "10.0.0.1:443" "example.com") (strBytes "X-Forwarded-Host")
      = some ["example.com"] ∧
    headerGet? (copyHeaders (buildHeaderMap [(strBytes "Accept", "text/html")])
        "10.0.0.1:443" "") (strBytes "X-Forwarded-Host")
      = headerGet? (hopFilterCopy (buildHeaderMap [(strBytes "Accept", "text/html")]))
          (strBytes "X-Forwarded-Host") :=
  ⟨(x_forwarded_headers
      [(strBytes "X-Forwarded-For", "9.9.9.9"), (strBytes "Accept", "text/html")]
      "10.0.0.1:443" "example.com").1,
   (x_forwarded_headers
      [(strBytes "X-Forwarded-For", "9.9.9.9"), (strBytes "Accept", "text/html")]
      "10.0.0.1:443" "example.com").2.2.1 (by decide),
   (x_forwarded_headers [(strBytes "Accept", "text/html")]
      "10.0.0.1:443" "").2.2.2 rfl⟩

/-- Claim C8: /health and /metrics reject every non-GET method with 405;
GET /health answers 503 whenever the upstream HEAD probe — aimed at the
configured target scheme+host under a 5-second deadline — cannot be
completed (request construction or round trip fails) and 200 with
"status":"healthy" when it can; GET /metrics answers 200 with
requests_total equal to 0. -/
theorem health_metrics_behaviour (method now uptime : String)
    (newRequestOk probeOk : Bool) (c : Config) :
    (method ≠ "GET" → (healthCheck method newRequestOk probeOk now).status = 405 ∧
      (metrics method uptime).status = 405) ∧
    (newRequestOk = false ∨ probeOk = false →
      (healthCheck "GET" newRequestOk probeOk now).status = 503) ∧
    healthCheck "GET" true true now
      = { status := 200, contentType := "application/json",
          body := "\x7b\"status\":\"healthy\",\"timestamp\":\"" ++ now ++ "\"\x7d" } ∧
    (∃ t1 t2, (healthCheck "GET" true true now).body
      = t1 ++ "\"status\":\"healthy\"" ++ t2) ∧
    metrics "GET" uptime
      = { status := 200, contentType := "application/json",
          body := "\x7b\"metrics\":\x7b\"uptime\":\"" ++ uptime
            ++ "\",\"requests_total\":0\x7d\x7d" } ∧
    (∃ t1 t2, (metrics "GET" uptime).body = t1 ++ "\"requests_total\":0" ++ t2) ∧
    healthProbeURL c = c.target.scheme ++ "://" ++ c.target.host ∧
    healthProbeMethod = "HEAD" ∧
    healthProbeTimeoutSeconds = 5 := by
  refine ⟨?_, ?_, rfl, ?_, rfl, ?_, rfl, rfl, rfl⟩
  · intro hm
    constructor
    · simp only [healthCheck, if_pos hm]
    · simp only [metrics, if_pos hm]
  · rintro (h | h)
    · subst h
      rfl
    · subst h
      cases newRequestOk <;> rfl
  · exact ⟨"\x7b", ",\"timestamp\":\"" ++ now ++ "\"\x7d", rfl⟩
  · refine ⟨"\x7b\"metrics\":\x7b\"uptime\":\"" ++ uptime ++ "\",", "\x7d\x7d", ?_⟩
    simp only [metrics, str_append_assoc]
    rfl

/-- Witness for C8: POST /health and DELETE /metrics get 405, and a failed
probe or a failed probe-request construction gets 503. -/
theorem health_metrics_behaviour_witness :
    (healthCheck "POST" true true "T").status = 405 ∧
    (metrics "DELETE" "0s").status = 405 ∧
    (healthCheck "GET" true false "T").status = 503 ∧
    (healthCheck "GET" false true "T").status = 503 :=
  ⟨((health_metrics_behaviour "POST" "T" "0s" true true DefaultConfig).1 (by decide)).1,
   ((health_metrics_behaviour "DELETE" "T" "0s" true true DefaultConfig).1 (by decide)).2,
   (health_metrics_behaviour "GET" "T" "0s" true false DefaultConfig).2.1 (Or.inr rfl),
   (health_metrics_behaviour "GET" "T" "0s" false true DefaultConfig).2.1 (Or.inl rfl)⟩

end ProxySpec
